import Mathlib

/-!
Verification of the higgsfieldsai scraper and downloader.

The development shallowly embeds the two source files:
  - video_downloader.py : filename derivation, the streaming fetch, and the
    per-record-file download loop that rewrites records in place;
  - simple_scraper.py : the per-listing extraction loop, overlay field
    extraction and the popup dismissal chain.

JSON records are modelled as association lists from field names to nullable
string values (none models JSON null).  The filesystem is modelled as the
list of existing paths; network fetches are driven by an outcome oracle so
that success, failure before the output file is opened, and failure after
it is opened (leaving a partial file) are all representable.
-/

namespace Higgsfield

/-! ### String utilities (urllib.parse.urlparse, os.path.basename, str.endswith) -/

/-- Characters after the first occurrence of "://", if any. -/
def dropScheme : List Char → Option (List Char)
  | [] => none
  | ':' :: '/' :: '/' :: rest => some rest
  | _ :: rest => dropScheme rest

/-- Characters from the first slash on (the path part of scheme://netloc/path). -/
def fromSlash : List Char → List Char
  | [] => []
  | '/' :: rest => '/' :: rest
  | _ :: rest => fromSlash rest

/-- Models urlparse(url).path for the URLs the program handles: for a URL of
shape scheme://netloc/path it is /path; a string without "://" is all path. -/
def urlPath (url : String) : String :=
  match dropScheme url.data with
  | none => url
  | some rest => String.mk (fromSlash rest)

/-- Models os.path.basename: the part after the last slash. -/
def basename (p : String) : String :=
  String.mk ((p.data.reverse.takeWhile (fun c => c ≠ '/')).reverse)

/-- Models str.endswith: the reversed string starts with the reversed suffix. -/
def endsWithStr (s suf : String) : Bool :=
  decide (s.data.reverse.take suf.data.length = suf.data.reverse)

/-! ### video_downloader.py : filename derivation -/

/-- get_file_extension: keep a recognized extension of the URL path, default
to ".mp4" otherwise. -/
def get_file_extension (url : String) : String :=
  let path := urlPath url
  if endsWithStr path ".mp4" then ".mp4"
  else if endsWithStr path ".webm" then ".webm"
  else if endsWithStr path ".mov" then ".mov"
  else ".mp4"

/-- video_id: os.path.basename(urlparse(video_url).path).split(dot)[0],
the basename up to the first dot. -/
def videoId (url : String) : String :=
  String.mk ((basename (urlPath url)).data.takeWhile (fun c => c ≠ '.'))

/-- filename built in download_category_videos: video_id plus extension. -/
def deriveFilename (url : String) : String :=
  videoId url ++ get_file_extension url

/-! ### JSON records as association lists -/

/-- A JSON field value: none models JSON null. -/
abbrev Val := Option String

/-- A JSON object, in key order. -/
abbrev Rec := List (String × Val)

/-- dict.get with default: value of the first matching key, or the default. -/
def getField (r : Rec) (k : String) (d : Val) : Val :=
  match r with
  | [] => d
  | p :: rest => if p.1 = k then p.2 else getField rest k d

/-- dict item assignment: replace the value of an existing key in place, or
append the new key at the end (Python dicts keep insertion order). -/
def setField (r : Rec) (k : String) (v : Val) : Rec :=
  match r with
  | [] => [(k, v)]
  | p :: rest => if p.1 = k then (k, v) :: rest else p :: setField rest k v

/-- Python truthiness of a nullable string: null and "" are falsy. -/
def isTruthy : Val → Bool
  | none => false
  | some s => s ≠ ""

/-! ### video_downloader.py : streaming fetch and per-file loop -/

/-- Outcome of one network fetch in download_video: success; an error before
the output file is opened (requests.get raised); or an error while streaming
chunks, after open(save_path) already created the file. -/
inductive FetchOutcome
  | ok
  | errBeforeOpen
  | errAfterOpen
deriving DecidableEq

/-- download_video: returns whether the download succeeded, and the resulting
filesystem.  The output file is created by open(save_path) before streaming
completes and is not removed in the except branch, so a mid-stream error
leaves the (partial) file on disk. -/
def download_video (outcome : FetchOutcome) (save_path : String)
    (fs : List String) : Bool × List String :=
  match outcome with
  | .ok => (true, save_path :: fs)
  | .errBeforeOpen => (false, fs)
  | .errAfterOpen => (false, save_path :: fs)

/-- Downloader state: the existing paths, and the URLs fetched so far. -/
structure DLState where
  fs : List String
  fetched : List String
deriving DecidableEq

/-- The two enrichment assignments applied to a record after a download or an
existence hit: video[local_file_path] = save_path; video[filename] = filename. -/
def enrich (video : Rec) (save_path filename : String) : Rec :=
  setField (setField video "local_file_path" (some save_path))
    "filename" (some filename)

/-- One iteration of the loop in download_category_videos: records without a
truthy video_url are kept unchanged; if the derived save path exists the
record is enriched without any fetch; otherwise download_video runs and the
record is enriched only on success. -/
def processVideo (oracle : String → FetchOutcome) (videosFolder : String)
    (st : DLState) (video : Rec) : Rec × DLState :=
  match getField video "video_url" (some "") with
  | none => (video, st)
  | some u =>
    if u = "" then (video, st)
    else
      let filename := deriveFilename u
      let save_path := videosFolder ++ "/" ++ filename
      if save_path ∈ st.fs then
        (enrich video save_path filename, st)
      else
        let dl := download_video (oracle u) save_path st.fs
        (if dl.1 then enrich video save_path filename else video,
         { fs := dl.2, fetched := st.fetched ++ [u] })

/-- The whole per-file loop over the records, threading the state in order. -/
def processVideos (oracle : String → FetchOutcome) (videosFolder : String) :
    DLState → List Rec → List Rec × DLState
  | st, [] => ([], st)
  | st, v :: vs =>
    ((processVideo oracle videosFolder st v).1 ::
        (processVideos oracle videosFolder
          (processVideo oracle videosFolder st v).2 vs).1,
      (processVideos oracle videosFolder
        (processVideo oracle videosFolder st v).2 vs).2)

/-- The record file: either a bare JSON list of records, or a wrapper object
whose "videos" key holds them; `other` is the wrapper minus that key. -/
inductive VideosFile
  | bare (videos : List Rec)
  | wrapper (other : Rec) (videos : List Rec)
deriving DecidableEq

/-- Processing one record file in download_category_videos: the records are
taken from the list or the wrapper, processed in order, and written back in
the same shape with the wrapper untouched apart from its "videos" key. -/
def download_category_file (oracle : String → FetchOutcome)
    (videosFolder : String) (st : DLState) :
    VideosFile → VideosFile × DLState
  | .bare vs =>
    ((VideosFile.bare (processVideos oracle videosFolder st vs).1),
      (processVideos oracle videosFolder st vs).2)
  | .wrapper other vs =>
    ((VideosFile.wrapper other (processVideos oracle videosFolder st vs).1),
      (processVideos oracle videosFolder st vs).2)

/-! ### simple_scraper.py : overlay field extraction -/

/-- The copy-prompt control found by the selector [data-copy-prompt]: its
stripped text, and the stripped text of the adjacent sibling the XPath query
finds (none when that query raises). -/
structure CopyButton where
  text : String
  sibling : Option String
deriving DecidableEq

/-- The overlay that appears after activating an item: the src attribute of
its video[src] element (none when absent), the copy-prompt control (none when
absent), and the text of the first generic prompt-like element (none when the
fallback selector matches nothing). -/
structure Modal where
  videoSrc : Option String
  copyButton : Option CopyButton
  fallbackPrompt : Option String
deriving DecidableEq

/-- The record built by extract_prompt_from_popup and appended by the loop:
both fields nullable. -/
structure Extracted where
  video_url : Option String
  prompt : Option String
deriving DecidableEq

/-- extract_prompt_from_popup: none only when the wait for the overlay itself
times out (the overlay argument is none).  With an overlay present the video
URL is read best-effort; the prompt comes from the copy-prompt control, with
its sibling consulted when the control text is empty or the sentinel "true",
and the generic selectors used only when the control is absent. -/
def extract_prompt_from_popup (modal : Option Modal) : Option Extracted :=
  match modal with
  | none => none
  | some m =>
    let video_url := m.videoSrc
    let prompt : Option String :=
      match m.copyButton with
      | some cb =>
        if cb.text = "" ∨ cb.text = "true" then
          match cb.sibling with
          | some s => some s
          | none => some cb.text
        else some cb.text
      | none => m.fallbackPrompt
    some ⟨video_url, prompt⟩

/-! ### simple_scraper.py : per-item loop of scrape_single_subcategory -/

/-- Python or on nullable strings: the first operand when truthy, else the
second. -/
def pyOr (a b : Option String) : Option String :=
  if isTruthy a then a else b

/-- One gallery figure as the loop observes it: the inline video[src] URL
(none when the lookup raises), whether the clickable link exists, whether the
scroll script runs without raising, whether any of the three click strategies
succeeds, and the overlay state after the click. -/
structure Figure where
  videoSrc : Option String
  hasLink : Bool
  scrollOk : Bool
  clickOk : Bool
  modal : Option Modal
deriving DecidableEq

/-- One iteration of the per-figure loop: none when the item is skipped (no
link, an exception while scrolling, every click strategy failing, a null
extraction result, or an extraction with neither field truthy); otherwise the
appended record, whose video_url prefers the overlay URL over the inline one
by Python or, and whose prompt is the extracted prompt. -/
def processFigure (fig : Figure) : Option Extracted :=
  if ¬ fig.hasLink then none
  else if ¬ fig.scrollOk then none
  else if ¬ fig.clickOk then none
  else
    match extract_prompt_from_popup fig.modal with
    | none => none
    | some ed =>
      if isTruthy ed.prompt ∨ isTruthy ed.video_url then
        some ⟨pyOr ed.video_url fig.videoSrc, ed.prompt⟩
      else none

/-- A listing page as scrape_single_subcategory observes it: whether
navigation and the body wait succeed, the figures matching the primary
selector figure[class*=group][data-sentry-component=MediaFigure], and the
figures matching the bare figure tag. -/
structure Page where
  navOk : Bool
  mediaFigures : List Figure
  allFigures : List Figure
deriving DecidableEq

/-- The figure-finding block: wait.until on the primary selector raises a
timeout when it matches nothing, caught below as none.  When the wait
succeeds the primary matches are enumerated; the written fallback to the bare
figure tag runs only if that enumeration is empty, which the wait has ruled
out. -/
def findFigures (p : Page) : Option (List Figure) :=
  if p.mediaFigures.isEmpty then none
  else
    let figures := p.mediaFigures
    let figures := if figures.isEmpty then p.allFigures else figures
    some figures

/-- scrape_single_subcategory: empty on a navigation error or on a timeout
finding figures, empty when no figures remain, else the per-figure loop over
the found figures in order, skipped items contributing nothing. -/
def scrape_single_subcategory (p : Page) : List Extracted :=
  if ¬ p.navOk then []
  else
    match findFigures p with
    | none => []
    | some figs =>
      if figs.isEmpty then []
      else figs.filterMap processFigure

/-! ### simple_scraper.py : close_popup dismissal chain -/

/-- One close-button candidate: its visibility and enabled state, and whether
the direct and the script-driven click succeed. -/
structure CloseBtn where
  displayed : Bool
  enabled : Bool
  clickOk : Bool
  jsClickOk : Bool
deriving DecidableEq

/-- One overlay or backdrop element: visibility and click success. -/
structure OverlayEl where
  displayed : Bool
  clickOk : Bool
deriving DecidableEq

/-- The environment close_popup runs against: success of the body click, of
each of the five position clicks in order, the close-button candidates over
all selectors in order, success of finding the body and sending escapes, the
overlay elements, and success of history back. -/
structure PopupEnv where
  bodyClickOk : Bool
  positionClicks : List Bool
  closeButtons : List CloseBtn
  escapeOk : Bool
  overlays : List OverlayEl
  backOk : Bool
deriving DecidableEq

/-- The six dismissal steps, in source order. -/
inductive Step
  | bodyClick
  | positionClick
  | closeButton
  | escapeKey
  | overlayClick
  | browserBack
deriving DecidableEq

/-- Whether a given step, run on its own, succeeds: the body click; any of
the five position clicks; any displayed and enabled close button whose direct
or script click works; the escape-key send; any displayed overlay that
accepts a click; the history back call. -/
def stepSucceeds (e : PopupEnv) : Step → Bool
  | .bodyClick => e.bodyClickOk
  | .positionClick => e.positionClicks.any id
  | .closeButton =>
      e.closeButtons.any fun b => b.displayed && b.enabled && (b.clickOk || b.jsClickOk)
  | .escapeKey => e.escapeOk
  | .overlayClick => e.overlays.any fun o => o.displayed && o.clickOk
  | .browserBack => e.backOk

/-- The six steps in the order the source tries them. -/
def stepOrder : List Step :=
  [.bodyClick, .positionClick, .closeButton, .escapeKey, .overlayClick, .browserBack]

/-- close_popup: each step runs only after every earlier step failed, the
first success returns true at once, and false is returned only after all six
steps failed.  The second component instruments the control flow with the
list of steps attempted, in order. -/
def close_popup (e : PopupEnv) : Bool × List Step :=
  if stepSucceeds e .bodyClick then (true, [.bodyClick])
  else if stepSucceeds e .positionClick then (true, [.bodyClick, .positionClick])
  else if stepSucceeds e .closeButton then
    (true, [.bodyClick, .positionClick, .closeButton])
  else if stepSucceeds e .escapeKey then
    (true, [.bodyClick, .positionClick, .closeButton, .escapeKey])
  else if stepSucceeds e .overlayClick then
    (true, [.bodyClick, .positionClick, .closeButton, .escapeKey, .overlayClick])
  else if stepSucceeds e .browserBack then (true, stepOrder)
  else (false, stepOrder)

/-! ### Concrete fixtures for witnesses and counterexamples -/

/-- A record with a video URL and a prompt. -/
def recA : Rec := [("video_url", some "https://x/a.mp4"), ("prompt", some "p")]

/-- An oracle whose every fetch fails before the output file is opened. -/
def failEarly : String → FetchOutcome := fun _ => FetchOutcome.errBeforeOpen

/-- An oracle whose every fetch fails while streaming, after the file opened. -/
def failLate : String → FetchOutcome := fun _ => FetchOutcome.errAfterOpen

/-- An overlay with a video URL and a copy-prompt control with usable text. -/
def modalA : Modal :=
  { videoSrc := some "https://x/a.mp4"
    copyButton := some { text := "a prompt", sibling := none }
    fallbackPrompt := none }

/-- A fully extractable figure with an inline preview URL. -/
def figA : Figure :=
  { videoSrc := some "https://x/inline.mp4", hasLink := true, scrollOk := true,
    clickOk := true, modal := some modalA }

/-- A figure with no clickable link: the loop skips it. -/
def badFig : Figure :=
  { videoSrc := none, hasLink := false, scrollOk := true, clickOk := true,
    modal := none }

/-- A page whose primary selector matches one extractable figure. -/
def pageA : Page := { navOk := true, mediaFigures := [figA], allFigures := [figA] }

/-- A page with a linkless figure between two extractable ones. -/
def pageSkip : Page :=
  { navOk := true, mediaFigures := [figA, badFig, figA], allFigures := [figA, badFig, figA] }

/-- An overlay whose video src attribute is the empty string. -/
def modalEmptySrc : Modal :=
  { videoSrc := some ""
    copyButton := some { text := "a prompt", sibling := none }
    fallbackPrompt := none }

/-- A figure with an inline URL whose overlay URL is the empty string. -/
def figInline : Figure :=
  { videoSrc := some "https://x/inline.mp4", hasLink := true, scrollOk := true,
    clickOk := true, modal := some modalEmptySrc }

/-- A dismissal environment where only the body click works. -/
def envBody : PopupEnv :=
  { bodyClickOk := true, positionClicks := [], closeButtons := [],
    escapeOk := false, overlays := [], backOk := false }

/-- A dismissal environment where every step fails. -/
def envNone : PopupEnv :=
  { bodyClickOk := false, positionClicks := [false, false, false, false, false],
    closeButtons := [], escapeOk := false, overlays := [], backOk := false }

/-! ### Lemmas on record fields -/

theorem getField_setField_ne (r : Rec) (k k2 : String) (v d : Val)
    (h : k ≠ k2) : getField (setField r k v) k2 d = getField r k2 d := by
  induction r with
  | nil => simp [setField, getField, h]
  | cons p rest ih =>
    by_cases hp : p.1 = k
    · simp [setField, getField, hp, h]
    · by_cases hq : p.1 = k2
      · simp [setField, getField, hp, hq, Ne.symm h]
      · simp [setField, getField, hp, hq, ih]

theorem setField_idem (r : Rec) (k : String) (v : Val) :
    setField (setField r k v) k v = setField r k v := by
  induction r with
  | nil => simp [setField]
  | cons p rest ih =>
    by_cases hp : p.1 = k
    · simp [setField, hp]
    · simp [setField, hp, ih]

theorem setField_setField_ne (r : Rec) (k k2 : String) (v v2 : Val)
    (h : k ≠ k2) :
    setField (setField (setField r k v) k2 v2) k v
      = setField (setField r k v) k2 v2 := by
  induction r with
  | nil => simp [setField, h, Ne.symm h]
  | cons p rest ih =>
    by_cases hp : p.1 = k
    · simp [setField, hp, h, Ne.symm h]
    · by_cases hq : p.1 = k2
      · simp [setField, hp, hq, Ne.symm h, setField_idem]
      · simp [setField, hp, hq, ih]

theorem enrich_idem (r : Rec) (p f : String) :
    enrich (enrich r p f) p f = enrich r p f := by
  unfold enrich
  rw [setField_setField_ne r "local_file_path" "filename" (some p) (some f)
    (by decide), setField_idem]

theorem getField_enrich_ne (r : Rec) (p f : String) (k : String) (d : Val)
    (h1 : k ≠ "local_file_path") (h2 : k ≠ "filename") :
    getField (enrich r p f) k d = getField r k d := by
  unfold enrich
  rw [getField_setField_ne _ _ _ _ _ (Ne.symm h2),
    getField_setField_ne _ _ _ _ _ (Ne.symm h1)]

/-! ### Lemmas on the per-record download step -/

theorem processVideo_frame (o : String → FetchOutcome) (folder : String)
    (st : DLState) (v : Rec) (k : String) (d : Val)
    (h1 : k ≠ "local_file_path") (h2 : k ≠ "filename") :
    getField (processVideo o folder st v).1 k d = getField v k d := by
  cases hu : getField v "video_url" (some "") with
  | none => simp [processVideo, hu]
  | some u =>
    by_cases hz : u = ""
    · simp [processVideo, hu, hz]
    · by_cases hm : (folder ++ "/" ++ deriveFilename u) ∈ st.fs
      · simp [processVideo, hu, hz, hm, getField_enrich_ne, h1, h2]
      · by_cases hd :
          (download_video (o u) (folder ++ "/" ++ deriveFilename u) st.fs).1 = true
        · simp [processVideo, hu, hz, hm, hd, getField_enrich_ne, h1, h2]
        · simp [processVideo, hu, hz, hm, hd]

theorem processVideo_fs_mono (o : String → FetchOutcome) (folder : String)
    (st : DLState) (v : Rec) :
    st.fs ⊆ (processVideo o folder st v).2.fs := by
  cases hu : getField v "video_url" (some "") with
  | none => simp [processVideo, hu]
  | some u =>
    by_cases hz : u = ""
    · simp [processVideo, hu, hz]
    · by_cases hm : (folder ++ "/" ++ deriveFilename u) ∈ st.fs
      · simp [processVideo, hu, hz, hm]
      · cases ho : o u <;>
          simp [processVideo, hu, hz, hm, ho, download_video, List.subset_cons_self]

theorem processVideo_replay (o : String → FetchOutcome) (folder : String)
    (hok : ∀ u, o u = FetchOutcome.ok)
    (st : DLState) (v : Rec) (st2 : DLState)
    (hsub : (processVideo o folder st v).2.fs ⊆ st2.fs) :
    processVideo o folder st2 (processVideo o folder st v).1
      = ((processVideo o folder st v).1, st2) := by
  cases hu : getField v "video_url" (some "") with
  | none => simp [processVideo, hu] at hsub ⊢
  | some u =>
    by_cases hz : u = ""
    · simp [processVideo, hu, hz] at hsub ⊢
    · have hurl : getField
          (enrich v (folder ++ "/" ++ deriveFilename u) (deriveFilename u))
          "video_url" (some "") = some u := by
        rw [getField_enrich_ne _ _ _ _ _ (by decide) (by decide), hu]
      by_cases hm : (folder ++ "/" ++ deriveFilename u) ∈ st.fs
      · have hres : processVideo o folder st v
            = (enrich v (folder ++ "/" ++ deriveFilename u) (deriveFilename u), st) := by
          simp [processVideo, hu, hz, hm]
        rw [hres] at hsub ⊢
        have hm2 : (folder ++ "/" ++ deriveFilename u) ∈ st2.fs := hsub hm
        simp [processVideo, hurl, hz, hm2, enrich_idem]
      · have hres : processVideo o folder st v
            = (enrich v (folder ++ "/" ++ deriveFilename u) (deriveFilename u),
               { fs := (folder ++ "/" ++ deriveFilename u) :: st.fs,
                 fetched := st.fetched ++ [u] }) := by
          simp [processVideo, hu, hz, hm, download_video, hok u]
        rw [hres] at hsub ⊢
        have hm2 : (folder ++ "/" ++ deriveFilename u) ∈ st2.fs :=
          hsub (List.mem_cons_self _ _)
        simp [processVideo, hurl, hz, hm2, enrich_idem]

/-! ### Lemmas on the per-file download loop -/

theorem processVideos_length (o : String → FetchOutcome) (folder : String)
    (vs : List Rec) : ∀ st, (processVideos o folder st vs).1.length = vs.length := by
  induction vs with
  | nil => intro st; simp [processVideos]
  | cons v vs ih => intro st; simp [processVideos, ih]

theorem processVideos_fs_mono (o : String → FetchOutcome) (folder : String)
    (vs : List Rec) : ∀ st, st.fs ⊆ (processVideos o folder st vs).2.fs := by
  induction vs with
  | nil => intro st; simp [processVideos]
  | cons v vs ih =>
    intro st
    exact (processVideo_fs_mono o folder st v).trans
      (ih (processVideo o folder st v).2)

theorem processVideos_frame (o : String → FetchOutcome) (folder : String)
    (vs : List Rec) : ∀ st (i : Nat) (k : String) (d : Val),
    k ≠ "local_file_path" → k ≠ "filename" →
    getField ((processVideos o folder st vs).1.getD i []) k d
      = getField (vs.getD i []) k d := by
  induction vs with
  | nil => intro st i k d _ _; simp [processVideos]
  | cons v vs ih =>
    intro st i k d h1 h2
    cases i with
    | zero => simpa [processVideos] using processVideo_frame o folder st v k d h1 h2
    | succ n =>
      have hstep := ih (processVideo o folder st v).2 n k d h1 h2
      simpa [processVideos] using hstep

theorem processVideos_replay (o : String → FetchOutcome) (folder : String)
    (hok : ∀ u, o u = FetchOutcome.ok) (vs : List Rec) :
    ∀ st st2, (processVideos o folder st vs).2.fs ⊆ st2.fs →
    processVideos o folder st2 (processVideos o folder st vs).1
      = ((processVideos o folder st vs).1, st2) := by
  induction vs with
  | nil => intro st st2 _; simp [processVideos]
  | cons v vs ih =>
    intro st st2 hsub
    simp only [processVideos] at hsub ⊢
    have hA : (processVideo o folder st v).2.fs ⊆ st2.fs :=
      (processVideos_fs_mono o folder vs (processVideo o folder st v).2).trans hsub
    have h1 := processVideo_replay o folder hok st v st2 hA
    rw [h1]
    have h2 := ih (processVideo o folder st v).2 st2 hsub
    rw [h2]

/-! ### Lemmas on truthiness and the per-figure loop -/

theorem isTruthy_ne_none (x : Val) (h : isTruthy x = true) : x ≠ none := by
  cases x with
  | none => simp [isTruthy] at h
  | some s => simp

theorem pyOr_truthy (a b : Option String) (h : isTruthy a = true) :
    pyOr a b = a := by
  simp [pyOr, h]

theorem processFigure_eq_some (fig : Figure) (r : Extracted)
    (h : processFigure fig = some r) :
    ∃ ed, extract_prompt_from_popup fig.modal = some ed ∧
      (isTruthy ed.prompt = true ∨ isTruthy ed.video_url = true) ∧
      r = ⟨pyOr ed.video_url fig.videoSrc, ed.prompt⟩ := by
  by_cases hL : fig.hasLink
  case neg => simp [processFigure, hL] at h
  by_cases hS : fig.scrollOk
  case neg => simp [processFigure, hL, hS] at h
  by_cases hC : fig.clickOk
  case neg => simp [processFigure, hL, hS, hC] at h
  cases hm : extract_prompt_from_popup fig.modal with
  | none => simp [processFigure, hL, hS, hC, hm] at h
  | some ed =>
    by_cases hg : isTruthy ed.prompt = true ∨ isTruthy ed.video_url = true
    · refine ⟨ed, rfl, hg, ?_⟩
      simp [processFigure, hL, hS, hC, hm, hg] at h
      exact h.symm
    · simp [processFigure, hL, hS, hC, hm, hg] at h

theorem processFigure_skip (fig : Figure)
    (h : fig.hasLink = false ∨ fig.scrollOk = false ∨ fig.clickOk = false) :
    processFigure fig = none := by
  rcases h with h | h | h
  · simp [processFigure, h]
  · by_cases hL : fig.hasLink <;> simp [processFigure, hL, h]
  · by_cases hL : fig.hasLink
    case neg => simp [processFigure, hL]
    by_cases hS : fig.scrollOk <;> simp [processFigure, hL, hS, h]

/-! ### Lemmas separating the recognized extensions -/

theorem endsWith_webm_not_mp4 (s : String)
    (h : endsWithStr s ".webm" = true) : endsWithStr s ".mp4" = false := by
  unfold endsWithStr at h ⊢
  rw [decide_eq_true_eq] at h
  rw [decide_eq_false_iff_not]
  intro hc
  have hl5 : (".webm" : String).data.length = 5 := rfl
  have hl4 : (".mp4" : String).data.length = 4 := rfl
  rw [hl5] at h
  rw [hl4] at hc
  have key : List.take 4 (s.data.reverse.take 5) = s.data.reverse.take 4 := by
    rw [List.take_take]
    norm_num
  rw [h, hc] at key
  exact absurd key (by decide)

theorem endsWith_mov_not_mp4 (s : String)
    (h : endsWithStr s ".mov" = true) : endsWithStr s ".mp4" = false := by
  unfold endsWithStr at h ⊢
  rw [decide_eq_true_eq] at h
  rw [decide_eq_false_iff_not]
  intro hc
  have hl : (".mov" : String).data.length = 4 := rfl
  have hl4 : (".mp4" : String).data.length = 4 := rfl
  rw [hl] at h
  rw [hl4] at hc
  rw [h] at hc
  exact absurd hc (by decide)

theorem endsWith_mov_not_webm (s : String)
    (h : endsWithStr s ".mov" = true) : endsWithStr s ".webm" = false := by
  unfold endsWithStr at h ⊢
  rw [decide_eq_true_eq] at h
  rw [decide_eq_false_iff_not]
  intro hc
  have hl : (".mov" : String).data.length = 4 := rfl
  have hl5 : (".webm" : String).data.length = 5 := rfl
  rw [hl] at h
  rw [hl5] at hc
  have key : List.take 4 (s.data.reverse.take 5) = s.data.reverse.take 4 := by
    rw [List.take_take]
    norm_num
  rw [hc, h] at key
  exact absurd key (by decide)

/-! ### Claim C1 -/

/-- C1 counterexample: when the single fetch of the first run fails before
the output file is opened, the second run on the rewritten record file
fetches the very same URL again, so the double run re-fetches a file and the
claim fails as stated. -/
theorem C1_counterexample :
    (processVideos failEarly "videos" { fs := [], fetched := [] } [recA]).2.fetched
        = ["https://x/a.mp4"] ∧
    (processVideos failEarly "videos"
        { fs := (processVideos failEarly "videos"
                  { fs := [], fetched := [] } [recA]).2.fs,
          fetched := [] }
        (processVideos failEarly "videos"
          { fs := [], fetched := [] } [recA]).1).2.fetched
      = ["https://x/a.mp4"] := by
  exact ⟨rfl, rfl⟩

/-- C1 (amended): a record whose derived target path already exists gets no
fetch and no state change while still receiving local_file_path and
filename; and provided every attempted fetch succeeds, running the
downloader a second time over the rewritten records fetches nothing and
returns the records unchanged. -/
theorem C1_theorem (o : String → FetchOutcome) (folder : String) :
    (∀ st v u, getField v "video_url" (some "") = some u → u ≠ "" →
      folder ++ "/" ++ deriveFilename u ∈ st.fs →
      processVideo o folder st v
        = (enrich v (folder ++ "/" ++ deriveFilename u) (deriveFilename u), st)) ∧
    (∀ st vs, (∀ u, o u = FetchOutcome.ok) →
      processVideos o folder
          { fs := (processVideos o folder st vs).2.fs, fetched := [] }
          (processVideos o folder st vs).1
        = ((processVideos o folder st vs).1,
           { fs := (processVideos o folder st vs).2.fs, fetched := [] })) := by
  constructor
  · intro st v u hu hz hm
    simp [processVideo, hu, hz, hm]
  · intro st vs hok
    exact processVideos_replay o folder hok vs st _ (fun x hx => hx)

/-- C1 witness: both parts of the amended claim at concrete inputs. -/
theorem C1_witness :
    (processVideo (fun _ => FetchOutcome.ok) "videos"
        { fs := ["videos/a.mp4"], fetched := [] } recA
      = (enrich recA ("videos" ++ "/" ++ deriveFilename "https://x/a.mp4")
          (deriveFilename "https://x/a.mp4"),
         { fs := ["videos/a.mp4"], fetched := [] })) ∧
    (processVideos (fun _ => FetchOutcome.ok) "videos"
        { fs := (processVideos (fun _ => FetchOutcome.ok) "videos"
                  { fs := [], fetched := [] } [recA]).2.fs,
          fetched := [] }
        (processVideos (fun _ => FetchOutcome.ok) "videos"
          { fs := [], fetched := [] } [recA]).1
      = ((processVideos (fun _ => FetchOutcome.ok) "videos"
            { fs := [], fetched := [] } [recA]).1,
         { fs := (processVideos (fun _ => FetchOutcome.ok) "videos"
                   { fs := [], fetched := [] } [recA]).2.fs,
           fetched := [] })) :=
  ⟨(C1_theorem (fun _ => FetchOutcome.ok) "videos").1
      { fs := ["videos/a.mp4"], fetched := [] } recA "https://x/a.mp4"
      (by decide) (by decide) (by decide),
   (C1_theorem (fun _ => FetchOutcome.ok) "videos").2
      { fs := [], fetched := [] } [recA] (fun _ => rfl)⟩

/-! ### Claim C9 -/

/-- C9: a streaming failure after the output file was opened makes
download_video return false while the (partial) file stays on disk and the
record stays bare; the next run then finds the file, performs no fetch, and
back-fills local_file_path and filename onto the record. -/
theorem C9_theorem :
    (download_video (failLate "https://x/a.mp4") "videos/a.mp4" []).1 = false ∧
    "videos/a.mp4" ∈ (download_video (failLate "https://x/a.mp4") "videos/a.mp4" []).2 ∧
    processVideos failLate "videos" { fs := [], fetched := [] } [recA]
      = ([recA], { fs := ["videos/a.mp4"], fetched := ["https://x/a.mp4"] }) ∧
    processVideos failLate "videos" { fs := ["videos/a.mp4"], fetched := [] } [recA]
      = ([enrich recA "videos/a.mp4" "a.mp4"],
         { fs := ["videos/a.mp4"], fetched := [] }) := by
  refine ⟨rfl, ?_, by decide, by decide⟩
  exact List.mem_cons_self _ _

/-! ### Claim C10 -/

/-- C10: the per-file rewrite keeps the outer shape (bare list or wrapper,
wrapper fields untouched), keeps the number and order of records, changes no
record field outside local_file_path and filename, and returns records
without a URL, and records whose download failed, unchanged. -/
theorem C10_theorem (o : String → FetchOutcome) (folder : String) :
    (∀ st vs, download_category_file o folder st (VideosFile.bare vs)
        = (VideosFile.bare (processVideos o folder st vs).1,
           (processVideos o folder st vs).2)) ∧
    (∀ st other vs,
        download_category_file o folder st (VideosFile.wrapper other vs)
          = (VideosFile.wrapper other (processVideos o folder st vs).1,
             (processVideos o folder st vs).2)) ∧
    (∀ st vs, (processVideos o folder st vs).1.length = vs.length) ∧
    (∀ st vs (i : Nat) (k : String) (d : Val),
        k ≠ "local_file_path" → k ≠ "filename" →
        getField ((processVideos o folder st vs).1.getD i []) k d
          = getField (vs.getD i []) k d) ∧
    (∀ st v, isTruthy (getField v "video_url" (some "")) = false →
        processVideo o folder st v = (v, st)) ∧
    (∀ st v u, getField v "video_url" (some "") = some u → u ≠ "" →
        folder ++ "/" ++ deriveFilename u ∉ st.fs → o u ≠ FetchOutcome.ok →
        (processVideo o folder st v).1 = v) := by
  refine ⟨fun st vs => rfl, fun st other vs => rfl,
    fun st vs => processVideos_length o folder vs st,
    fun st vs i k d h1 h2 => processVideos_frame o folder vs st i k d h1 h2,
    ?_, ?_⟩
  · intro st v h
    cases hu : getField v "video_url" (some "") with
    | none => simp [processVideo, hu]
    | some u =>
      rw [hu] at h
      simp only [isTruthy, decide_eq_false_iff_not, not_not] at h
      simp [processVideo, hu, h]
  · intro st v u hu hz hm ho
    cases hou : o u with
    | ok => exact absurd hou ho
    | errBeforeOpen => simp [processVideo, hu, hz, hm, download_video, hou]
    | errAfterOpen => simp [processVideo, hu, hz, hm, download_video, hou]

/-- C10 witness: the frame parts of the claim at concrete inputs. -/
theorem C10_witness :
    getField ((processVideos failEarly "videos"
        { fs := [], fetched := [] } [recA]).1.getD 0 []) "prompt" none
      = getField ([recA].getD 0 []) "prompt" none ∧
    processVideo failEarly "videos" { fs := [], fetched := [] }
        [("prompt", some "p")]
      = ([("prompt", some "p")], { fs := [], fetched := [] }) ∧
    (processVideo failEarly "videos" { fs := [], fetched := [] } recA).1 = recA :=
  ⟨(C10_theorem failEarly "videos").2.2.2.1
      { fs := [], fetched := [] } [recA] 0 "prompt" none (by decide) (by decide),
   (C10_theorem failEarly "videos").2.2.2.2.1
      { fs := [], fetched := [] } [("prompt", some "p")] (by decide),
   (C10_theorem failEarly "videos").2.2.2.2.2
      { fs := [], fetched := [] } recA "https://x/a.mp4"
      (by decide) (by decide) (by decide) (by decide)⟩

/-! ### Claim C6 -/

/-- C6: a URL path ending in .mp4, .webm or .mov keeps its extension, any
other extension defaults to .mp4; https://x/a.mp4 derives filename a.mp4,
and after a successful fetch the record's local_file_path ends in a.mp4. -/
theorem C6_theorem :
    (∀ url, endsWithStr (urlPath url) ".mp4" = true →
        get_file_extension url = ".mp4") ∧
    (∀ url, endsWithStr (urlPath url) ".webm" = true →
        get_file_extension url = ".webm") ∧
    (∀ url, endsWithStr (urlPath url) ".mov" = true →
        get_file_extension url = ".mov") ∧
    (∀ url, endsWithStr (urlPath url) ".mp4" = false →
        endsWithStr (urlPath url) ".webm" = false →
        endsWithStr (urlPath url) ".mov" = false →
        get_file_extension url = ".mp4") ∧
    deriveFilename "https://x/a.mp4" = "a.mp4" ∧
    get_file_extension "https://x/a.bin" = ".mp4" ∧
    getField (processVideo (fun _ => FetchOutcome.ok) "videos"
        { fs := [], fetched := [] } recA).1 "local_file_path" none
      = some "videos/a.mp4" ∧
    endsWithStr "videos/a.mp4" "a.mp4" = true := by
  refine ⟨?_, ?_, ?_, ?_, by decide, by decide, by decide, by decide⟩
  · intro url h
    simp [get_file_extension, h]
  · intro url h
    simp [get_file_extension, h, endsWith_webm_not_mp4 _ h]
  · intro url h
    simp [get_file_extension, h, endsWith_mov_not_mp4 _ h,
      endsWith_mov_not_webm _ h]
  · intro url h1 h2 h3
    simp [get_file_extension, h1, h2, h3]

/-- C6 witness: the extension rules applied at concrete URLs. -/
theorem C6_witness :
    get_file_extension "https://x/v/b.webm" = ".webm" ∧
    get_file_extension "https://x/v/c.mov" = ".mov" ∧
    get_file_extension "https://x/v/d.bin" = ".mp4" :=
  ⟨C6_theorem.2.1 "https://x/v/b.webm" (by decide),
   C6_theorem.2.2.1 "https://x/v/c.mov" (by decide),
   C6_theorem.2.2.2.1 "https://x/v/d.bin" (by decide) (by decide) (by decide)⟩

/-! ### Claim C7 -/

/-- C7: the overlay extractor always yields a record with nullable fields
when the overlay is found, yields a null result exactly when the overlay
wait timed out, and absence of the media element and of every prompt source
gives null fields rather than a null result or an exception (the embedding
is a total function: no exception escapes). -/
theorem C7_theorem :
    (∀ m : Modal, (extract_prompt_from_popup (some m)).isSome = true) ∧
    extract_prompt_from_popup none = none ∧
    (∀ om, extract_prompt_from_popup om = none → om = none) ∧
    (∀ m : Modal, m.videoSrc = none → m.copyButton = none →
        m.fallbackPrompt = none →
        extract_prompt_from_popup (some m) = some ⟨none, none⟩) := by
  refine ⟨?_, rfl, ?_, ?_⟩
  · intro m
    simp [extract_prompt_from_popup]
  · intro om h
    cases om with
    | none => rfl
    | some m => simp [extract_prompt_from_popup] at h
  · intro m h1 h2 h3
    simp [extract_prompt_from_popup, h1, h2, h3]

/-- C7 witness: the empty overlay yields null fields, not a null result. -/
theorem C7_witness :
    extract_prompt_from_popup
        (some { videoSrc := none, copyButton := none, fallbackPrompt := none })
      = some ⟨none, none⟩ :=
  C7_theorem.2.2.2 { videoSrc := none, copyButton := none, fallbackPrompt := none }
    rfl rfl rfl

/-! ### Claim C4 -/

/-- C4: every record the loop appends has video_url or prompt non-null, and
an item whose extraction returned a null result, or null for both fields, is
dropped before being appended. -/
theorem C4_theorem :
    (∀ p r, r ∈ scrape_single_subcategory p →
        r.video_url ≠ none ∨ r.prompt ≠ none) ∧
    (∀ fig : Figure, (extract_prompt_from_popup fig.modal = none ∨
        extract_prompt_from_popup fig.modal = some ⟨none, none⟩) →
        processFigure fig = none) := by
  constructor
  · intro p r hr
    have hmem : ∃ fig, processFigure fig = some r := by
      unfold scrape_single_subcategory at hr
      by_cases hn : p.navOk
      · simp only [hn] at hr
        cases hf : findFigures p with
        | none => rw [hf] at hr; simp at hr
        | some figs =>
          rw [hf] at hr
          by_cases he : figs.isEmpty
          · simp [he] at hr
          · simp only [he, if_false, Bool.false_eq_true, if_neg] at hr
            obtain ⟨fig, _, hfig⟩ := List.mem_filterMap.mp hr
            exact ⟨fig, hfig⟩
      · simp [hn] at hr
    obtain ⟨fig, hfig⟩ := hmem
    obtain ⟨ed, _, hg, hre⟩ := processFigure_eq_some fig r hfig
    subst hre
    rcases hg with hg | hg
    · exact Or.inr (isTruthy_ne_none _ hg)
    · refine Or.inl ?_
      rw [pyOr_truthy _ _ hg]
      exact isTruthy_ne_none _ hg
  · intro fig h
    by_cases hL : fig.hasLink
    case neg => simp [processFigure, hL]
    by_cases hS : fig.scrollOk
    case neg => simp [processFigure, hL, hS]
    by_cases hC : fig.clickOk
    case neg => simp [processFigure, hL, hS, hC]
    rcases h with h | h
    · simp [processFigure, hL, hS, hC, h]
    · simp [processFigure, hL, hS, hC, h, isTruthy]

/-- C4 witness: the invariant at the record extracted from the concrete page. -/
theorem C4_witness :
    (some "https://x/a.mp4" : Option String) ≠ none ∨
    (some "a prompt" : Option String) ≠ none :=
  C4_theorem.1 pageA ⟨some "https://x/a.mp4", some "a prompt"⟩ (by decide)

/-! ### Claim C3 -/

/-- C3: the workflow is a total function of the page (no exception reaches
the caller); a navigation failure yields the empty sequence; an item with no
activation link, or whose scroll raises, or whose click strategies all fail,
is skipped while every other item is still processed. -/
theorem C3_theorem :
    (∀ p : Page, p.navOk = false → scrape_single_subcategory p = []) ∧
    (∀ fig : Figure,
        fig.hasLink = false ∨ fig.scrollOk = false ∨ fig.clickOk = false →
        processFigure fig = none) ∧
    (∀ (p : Page) pre bad post, p.navOk = true →
        p.mediaFigures = pre ++ bad :: post → processFigure bad = none →
        scrape_single_subcategory p
          = pre.filterMap processFigure ++ post.filterMap processFigure) := by
  refine ⟨?_, processFigure_skip, ?_⟩
  · intro p h
    simp [scrape_single_subcategory, h]
  · intro p pre bad post hn hm hbad
    have hne : (pre ++ bad :: post).isEmpty = false := by
      cases pre <;> simp
    simp [scrape_single_subcategory, findFigures, hn, hm, hne,
      List.filterMap_append, hbad]

/-- C3 witness: on the concrete page a linkless middle item is skipped while
both neighbours are still extracted. -/
theorem C3_witness :
    scrape_single_subcategory pageSkip
      = [figA].filterMap processFigure ++ [figA].filterMap processFigure :=
  C3_theorem.2.2 pageSkip [figA] badFig [figA] rfl rfl (by decide)

/-! ### Claim C2 -/

/-- C2 counterexample: zero primary-selector matches while the looser
selector has one fully extractable figure; the claimed fallback would yield
a record, but the code returns the empty sequence because the wait on the
primary selector times out before the fallback line can run. -/
theorem C2_counterexample :
    scrape_single_subcategory
        { navOk := true, mediaFigures := [], allFigures := [figA] } = [] ∧
    List.filterMap processFigure [figA] ≠ [] := by
  exact ⟨rfl, by decide⟩

/-- C2 (amended): when the primary selector yields zero matches the wait for
it times out and the workflow returns the empty sequence without consulting
the looser selector (the written fallback is unreachable); when the primary
selector yields matches, exactly those matches are processed. -/
theorem C2_theorem (p : Page) (hn : p.navOk = true) :
    (p.mediaFigures = [] → scrape_single_subcategory p = []) ∧
    (p.mediaFigures ≠ [] →
        scrape_single_subcategory p = p.mediaFigures.filterMap processFigure) := by
  constructor
  · intro h
    simp [scrape_single_subcategory, findFigures, hn, h]
  · intro h
    cases hM : p.mediaFigures with
    | nil => exact absurd hM h
    | cons a as =>
      simp [scrape_single_subcategory, findFigures, hn, hM]

/-- C2 witness: both behaviours at concrete pages. -/
theorem C2_witness :
    scrape_single_subcategory
        { navOk := true, mediaFigures := [], allFigures := [figA, badFig] } = [] ∧
    scrape_single_subcategory pageA = pageA.mediaFigures.filterMap processFigure :=
  ⟨(C2_theorem { navOk := true, mediaFigures := [], allFigures := [figA, badFig] }
      rfl).1 rfl,
   (C2_theorem pageA rfl).2 (by decide)⟩

/-! ### Claim C5 -/

/-- C5 counterexample: the overlay URL is the non-null empty string and the
inline preview URL is present; the appended record carries the inline URL,
so the non-null overlay URL did not take precedence as claimed. -/
theorem C5_counterexample :
    processFigure figInline
      = some ⟨some "https://x/inline.mp4", some "a prompt"⟩ ∧
    (extract_prompt_from_popup figInline.modal).map Extracted.video_url
      = some (some "") ∧
    (some "https://x/inline.mp4" : Option String) ≠ some "" := by
  exact ⟨rfl, rfl, by decide⟩

/-- C5 (amended): whenever the overlay-extracted URL is non-empty (truthy),
the appended record carries it, never the inline preview URL. -/
theorem C5_theorem (fig : Figure) (ed : Extracted) (r : Extracted)
    (hm : extract_prompt_from_popup fig.modal = some ed)
    (ht : isTruthy ed.video_url = true)
    (hr : processFigure fig = some r) :
    r.video_url = ed.video_url := by
  obtain ⟨ed2, hm2, _, hre⟩ := processFigure_eq_some fig r hr
  rw [hm] at hm2
  obtain rfl : ed = ed2 := Option.some.inj hm2
  subst hre
  exact pyOr_truthy _ _ ht

/-- C5 witness: on the concrete figure the overlay URL wins. -/
theorem C5_witness :
    (Extracted.mk (some "https://x/a.mp4") (some "a prompt")).video_url
      = (Extracted.mk (some "https://x/a.mp4") (some "a prompt")).video_url :=
  C5_theorem figA ⟨some "https://x/a.mp4", some "a prompt"⟩
    ⟨some "https://x/a.mp4", some "a prompt"⟩ rfl (by decide) rfl

/-! ### Claim C8 -/

/-- C8: close_popup tries the six steps strictly in the specified order,
attempts a step only after every earlier step failed, returns true at the
first success (when the body click succeeds nothing later is attempted),
and returns false exactly when every step has failed, all six attempted. -/
theorem C8_theorem (e : PopupEnv) :
    ((close_popup e).1 = false ↔ ∀ s ∈ stepOrder, stepSucceeds e s = false) ∧
    (stepSucceeds e Step.bodyClick = true →
        close_popup e = (true, [Step.bodyClick])) ∧
    stepOrder.take (close_popup e).2.length = (close_popup e).2 ∧
    (close_popup e).2.dropLast.all (fun s => !(stepSucceeds e s)) = true ∧
    ((close_popup e).1 = false → (close_popup e).2 = stepOrder) ∧
    ((close_popup e).1 = true →
        ∀ s, (close_popup e).2.getLast? = some s → stepSucceeds e s = true) := by
  by_cases h1 : stepSucceeds e Step.bodyClick = true <;>
    by_cases h2 : stepSucceeds e Step.positionClick = true <;>
      by_cases h3 : stepSucceeds e Step.closeButton = true <;>
        by_cases h4 : stepSucceeds e Step.escapeKey = true <;>
          by_cases h5 : stepSucceeds e Step.overlayClick = true <;>
            by_cases h6 : stepSucceeds e Step.browserBack = true <;>
              simp [close_popup, stepOrder, h1, h2, h3, h4, h5, h6]

/-- C8 witness: the body-click short-circuit and the all-fail fall-through
at concrete environments. -/
theorem C8_witness :
    close_popup envBody = (true, [Step.bodyClick]) ∧
    (close_popup envNone).2 = stepOrder :=
  ⟨(C8_theorem envBody).2.1 rfl, (C8_theorem envNone).2.2.2.2.1 rfl⟩

end Higgsfield
